import Mathlib

/-!
Shallow embedding of the em-photographe API (Express + Sequelize backend).

Embedded sources:
- controller/ImageCtrl.js : checkImageData, checkImageUnique, setImages,
  listImages, createImage, updateImage, deleteImage;
- the UserCtrl code embedded at the tail of app/swagger.yaml : checkUserData,
  checkUserPassword, checkUserUnique, setImage, createUser, listUsers,
  readUser, updateUser, deleteUser;
- model/UserModel.js and the Image model (unnamed sources) : row shapes and
  unique constraints;
- the Auth and Image routers (unnamed sources) : route tables.

The state carries the two database tables, the set of files on disk (full
path strings) and the response already sent on the current request.  A
computation is Except St St: the error branch is a thrown JS exception
carrying the state at the throw site.  Express sends at most one response:
a second res.status(..).json(..) throws.  Environment-variable message
strings are represented by the names of the variables that hold them.
middlewares.js is not among the sources; its functions are modelled from
the spec and are marked as such.
-/

/-- Configuration drawn from the environment (dotenv): validation bounds,
the image extension and the image storage root IMG_URL. -/
structure Config where
  stringMin : Nat
  stringMax : Nat
  textMax : Nat
  imgExt : String
  imgUrl : String
deriving Repr, DecidableEq

/-- A persisted password value.  bcrypt.hash(p, cost) is modelled abstractly
by the constructor hashed p cost; plain v is a raw string persisted as is. -/
inductive Password where
  | plain (value : String)
  | hashed (plaintext : String) (cost : Nat)
deriving Repr, DecidableEq

/-- Row of the Images table: the Image model declares id, url, description
and gallery (url carries a unique constraint). -/
structure ImageRow where
  id : Nat
  url : String
  description : String
  gallery : String
deriving Repr, DecidableEq

/-- Row of the Users table: UserModel declares id, name, email, image and
password (name, email and image carry unique constraints). -/
structure UserRow where
  id : Nat
  name : String
  email : String
  image : String
  password : Password
deriving Repr, DecidableEq

/-- An HTTP response: status code and message payload. -/
structure Response where
  status : Nat
  message : String
deriving Repr, DecidableEq

/-- Global state: database tables, the files on disk (full paths) and the
response already sent on the current request, if any. -/
structure St where
  images : List ImageRow
  users : List UserRow
  fs : List String
  sent : Option Response
deriving Repr, DecidableEq

/-- JS string conversion of a possibly undefined value: concatenating
undefined into a string yields the text "undefined". -/
def jsStr : Option String → String
  | none => "undefined"
  | some s => s

/-- Reading the image property of an Images row, as updateImage does: the
Image model declares no such attribute, so the access yields undefined. -/
def ImageRow.imageAttr (_ : ImageRow) : Option String := none

/-- res.status(code).json({message}): sends the response, or throws when a
response was already sent on this request. -/
def send (status : Nat) (msg : String) (s : St) : Except St St :=
  match s.sent with
  | none => .ok { s with sent := some ⟨status, msg⟩ }
  | some _ => .error s

/-- The guard shape shared by all check helpers: when the condition holds
the helper sends the given response and returns; otherwise it falls
through.  The caller continues in both cases. -/
def guardSend (cond : Bool) (status : Nat) (msg : String) (s : St) : Except St St :=
  if cond then send status msg s else .ok s

/-- The try/catch wrapper of each controller: a thrown error is answered
with the given status and message; when that send itself throws (a response
was already sent) the rejection is unhandled and the state stands. -/
def runCatch (status : Nat) (msg : String) (m : Except St St) : St :=
  match m with
  | .ok s => s
  | .error s =>
    match send status msg s with
    | .ok t => t
    | .error t => t

/-- fs.promises.unlink: removes the file, or rejects (ENOENT) when the path
is absent. -/
def unlink (path : String) (s : St) : Except St St :=
  if path ∈ s.fs then .ok { s with fs := s.fs.erase path } else .error s

namespace Middlewares

/-- Modelled from the spec: middlewares.js is not among the sources.
checkRange value min max fails when the length of the value lies outside
the inclusive bounds. -/
def checkRange (value : String) (min max : Nat) : Bool :=
  decide (min ≤ value.length ∧ value.length ≤ max)

/-- Modelled from the spec: middlewares.js is not among the sources.
checkEmail is a structural email-shape predicate. -/
def checkEmail (value : String) : Bool :=
  value.data.contains '@'

/-- Modelled from the spec: middlewares.js is not among the sources.
checkPassword is a minimum-strength predicate; an absent value fails. -/
def checkPassword (value : Option String) : Bool :=
  match value with
  | none => false
  | some p => decide (8 ≤ p.length)

/-- Modelled from the spec: middlewares.js is not among the sources.
getName derives a slug from the name; its exact shape is unspecified and
unused by the claims, so it is modelled as the name itself. -/
def getName (name : String) : String := name

/-- Modelled from the spec: middlewares.js is not among the sources.
setImage materializes the staged upload into the storage area rooted at
root under the output name; the input must exist; the input copy is kept
for the caller to remove explicitly. -/
def setImage (root input output : String) (s : St) : Except St St :=
  if (root ++ input) ∈ s.fs then .ok { s with fs := (root ++ output) :: s.fs }
  else .error s

end Middlewares

/-- Fresh primary key for an Images row (autoIncrement). -/
def nextImageId (s : St) : Nat := (s.images.map (fun i => i.id)).foldr max 0 + 1

/-- Fresh primary key for a Users row (autoIncrement). -/
def nextUserId (s : St) : Nat := (s.users.map (fun u => u.id)).foldr max 0 + 1

/-- Image.create with the given attributes: throws on an injected store
failure or when the unique constraint on url is violated. -/
def imageCreate (dbFail : Bool) (url description gallery : String) (s : St) :
    Except St St :=
  if dbFail then .error s
  else if s.images.any (fun i => i.url == url) then .error s
  else .ok { s with images := s.images ++ [⟨nextImageId s, url, description, gallery⟩] }

/-- Image.update where id: rewrites the matching rows; throws on an injected
store failure or when the unique constraint on url would be violated. -/
def imageUpdate (dbFail : Bool) (id : Nat) (url description gallery : String)
    (s : St) : Except St St :=
  if dbFail then .error s
  else if (s.images.any (fun i => i.id == id)) &&
          (s.images.any (fun i => i.id != id && i.url == url)) then .error s
  else .ok { s with images := s.images.map (fun i =>
    if i.id = id then { i with url := url, description := description, gallery := gallery }
    else i) }

/-- Image.destroy where id. -/
def imageDestroy (dbFail : Bool) (id : Nat) (s : St) : Except St St :=
  if dbFail then .error s
  else .ok { s with images := s.images.filter (fun i => i.id != id) }

/-- User.create with the given attributes: throws on an injected store
failure or when a unique constraint on name, email or image is violated. -/
def userCreate (dbFail : Bool) (name email image : String) (password : Password)
    (s : St) : Except St St :=
  if dbFail then .error s
  else if s.users.any (fun u => u.name == name || u.email == email || u.image == image)
    then .error s
  else .ok { s with users := s.users ++ [⟨nextUserId s, name, email, image, password⟩] }

/-- User.update where id: rewrites the matching rows; a field passed as none
was undefined in the update object and the column keeps its value. -/
def userUpdate (dbFail : Bool) (id : Nat) (name email : String)
    (image : Option String) (password : Option Password) (s : St) : Except St St :=
  if dbFail then .error s
  else if (s.users.any (fun u => u.id == id)) &&
          (s.users.any (fun u => u.id != id &&
            (u.name == name || u.email == email ||
             (match image with | some im => u.image == im | none => false)))) then .error s
  else .ok { s with users := s.users.map (fun u =>
    if u.id = id then
      { u with name := name, email := email,
               image := image.getD u.image, password := password.getD u.password }
    else u) }

/-- User.destroy where id. -/
def userDestroy (dbFail : Bool) (id : Nat) (s : St) : Except St St :=
  if dbFail then .error s
  else .ok { s with users := s.users.filter (fun u => u.id != id) }

/-- A parsed multipart request on the image endpoints: the :id route param,
the form fields, the optional uploaded file (its newFilename), the clock
value Date.now() and an injected store-level failure of the persist step. -/
structure ImageReq where
  id : Nat
  url : String
  description : String
  gallery : String
  file : Option String
  now : Nat
  dbFail : Bool
deriving Repr, DecidableEq

/-- A parsed multipart request on the user endpoints. -/
structure UserReq where
  id : Nat
  name : String
  email : String
  password : Option String
  file : Option String
  now : Nat
  dbFail : Bool
deriving Repr, DecidableEq

namespace ImageCtrl

/-- checkImageData: answers 403 CHECK_NAME when the description fails
checkRange(description, STRING_MIN, TEXT_MAX); the caller continues. -/
def checkImageData (cfg : Config) (description : String) (s : St) : Except St St :=
  guardSend (!Middlewares.checkRange description cfg.stringMin cfg.textMax)
    403 "CHECK_NAME" s

/-- checkImageUnique: answers 403 DISPO_URL when the candidate url equals
the url of the given image; the caller continues. -/
def checkImageUnique (url : String) (image : ImageRow) (s : St) : Except St St :=
  guardSend (image.url == url) 403 "DISPO_URL" s

/-- setImages: forwards to the middlewares setImage inside IMG_URL. -/
def setImages (cfg : Config) (input output : String) (s : St) : Except St St :=
  Middlewares.setImage cfg.imgUrl input output s

/-- createImage (ImageCtrl.js).  The checks send 403 responses but do not
stop the handler; findAll filtered by gallery resolves to an array, never a
falsy value, so the IMAGES_NOT_FOUND branch is dead; Image.create receives
name: IMG but the model has no name column, so the attribute is dropped. -/
def createImage (cfg : Config) (req : ImageReq) (s0 : St) : St :=
  runCatch 400 "IMAGE_NOT_CREATED" (do
    let s ← checkImageData cfg req.description s0
    let images := s.images.filter (fun i => i.gallery == req.gallery)
    let s ← images.foldlM (fun s i => checkImageUnique req.url i s) s
    let IMG := toString req.now ++ "." ++ cfg.imgExt
    let s ← match req.file with
      | some newFilename => do
        let s ← setImages cfg newFilename IMG s
        unlink (cfg.imgUrl ++ newFilename) s
      | none => pure s
    let s ← imageCreate req.dbFail req.url req.description req.gallery s
    send 201 "IMAGE_CREATED" s)

/-- updateImage (ImageCtrl.js).  img is read from the row through the
nonexistent image attribute, so the first unlink targets the literal path
IMG_URL ++ "undefined", before Image.update runs; the reassignment of img
to the generated name is dead, since setImages stores the upload under the
request url; the temp file is then removed. -/
def updateImage (cfg : Config) (req : ImageReq) (s0 : St) : St :=
  runCatch 400 "IMAGE_NOT_UPDATED" (do
    let s ← checkImageData cfg req.description s0
    let images := s.images.filter (fun i => i.gallery == req.gallery)
    if images.isEmpty then
      send 404 "IMAGES_NOT_FOUND" s
    else do
      let s ← (images.filter (fun i => i.id != req.id)).foldlM
        (fun s i => checkImageUnique req.url i s) s
      let img : Option String :=
        (images.find? (fun i => i.id == req.id)).bind ImageRow.imageAttr
      let s ← match req.file with
        | some newFilename => do
          let s ← unlink (cfg.imgUrl ++ jsStr img) s
          let s ← setImages cfg newFilename req.url s
          unlink (cfg.imgUrl ++ newFilename) s
        | none => pure s
      let s ← imageUpdate req.dbFail req.id req.url req.description req.gallery s
      send 200 "IMAGE_UPDATED" s)

/-- deleteImage (ImageCtrl.js): looks the row up by primary key, unlinks
IMG_URL ++ row.url, destroys the row and answers 204; any throw is answered
with 400 IMAGE_NOT_DELETED. -/
def deleteImage (cfg : Config) (req : ImageReq) (s0 : St) : St :=
  runCatch 400 "IMAGE_NOT_DELETED" (do
    match s0.images.find? (fun i => i.id == req.id) with
    | none => send 404 "IMAGE_NOT_FOUND" s0
    | some image => do
      let s ← unlink (cfg.imgUrl ++ image.url) s0
      let s ← imageDestroy req.dbFail req.id s
      send 204 "IMAGE_DELETED" s)

end ImageCtrl

namespace UserCtrl

/-- USERS_IMG, the user storage root. -/
def usersImg (cfg : Config) : String := cfg.imgUrl ++ "users/"

/-- checkUserData: answers 403 when the name fails checkRange or the email
fails checkEmail; the caller continues. -/
def checkUserData (cfg : Config) (name email : String) (s : St) : Except St St :=
  guardSend (!(Middlewares.checkRange name cfg.stringMin cfg.stringMax &&
               Middlewares.checkEmail email)) 403 "CHECK_NAME" s

/-- checkUserPassword: answers 403 CHECK_PASSWORD when the password fails
checkPassword; the caller continues. -/
def checkUserPassword (password : Option String) (s : St) : Except St St :=
  guardSend (!Middlewares.checkPassword password) 403 "CHECK_PASSWORD" s

/-- checkUserUnique: answers 403 when the candidate name or email equals
that of the given user; the caller continues. -/
def checkUserUnique (name email : String) (user : UserRow) (s : St) : Except St St :=
  guardSend (user.name == name || user.email == email) 403 "DISPO_NAME" s

/-- setImage as defined inside the UserCtrl source: the body binds the two
path strings and performs no operation at all. -/
def setImage (input output : String) (s : St) : Except St St :=
  .ok s

/-- bcrypt.hash(password, 10): rejects when the password is undefined. -/
def bcryptHash (password : Option String) (s : St) : Except St Password :=
  match password with
  | none => .error s
  | some p => .ok (Password.hashed p 10)

/-- createUser (UserCtrl source embedded in swagger.yaml).  The checks send
403 responses but do not stop the handler; findAll resolves to an array, so
the USER_NOT_FOUND branch is dead; the generated image name is persisted on
the row whether or not a file was uploaded, and the local no-op setImage is
what runs before the temp upload is unlinked. -/
def createUser (cfg : Config) (req : UserReq) (s0 : St) : St :=
  runCatch 400 "USER_NOT_CREATED" (do
    let s ← checkUserData cfg req.name req.email s0
    let s ← checkUserPassword req.password s
    let s ← s.users.foldlM (fun s u => checkUserUnique req.name req.email u s) s
    let IMG := Middlewares.getName req.name ++ "-" ++ toString req.now ++ "." ++ cfg.imgExt
    let s ← match req.file with
      | some newFilename => do
        let s ← setImage newFilename IMG s
        unlink (usersImg cfg ++ newFilename) s
      | none => pure s
    let hash ← bcryptHash req.password s
    let s ← userCreate req.dbFail req.name req.email IMG hash s
    send 201 "USER_CREATED" s)

/-- updateUser (UserCtrl source embedded in swagger.yaml).  Without a new
file the image field is the one read from the existing row; with a truthy
password the persisted value is the bcrypt hash, while a present but empty
password falls to the else branch where the fields spread carries the raw
value into the row. -/
def updateUser (cfg : Config) (req : UserReq) (s0 : St) : St :=
  runCatch 400 "USER_NOT_UPDATED" (do
    let s ← checkUserData cfg req.name req.email s0
    if s.users.isEmpty then
      send 404 "USER_NOT_FOUND" s
    else do
      let s ← (s.users.filter (fun u => u.id != req.id)).foldlM
        (fun s u => checkUserUnique req.name req.email u s) s
      let img0 : Option String :=
        (s.users.find? (fun u => u.id == req.id)).map (fun u => u.image)
      let fileRes ← match req.file with
        | some newFilename => do
          let newImg := Middlewares.getName req.name ++ "-" ++ toString req.now
            ++ "." ++ cfg.imgExt
          let s ← setImage newFilename newImg s
          let s ← unlink (usersImg cfg ++ newFilename) s
          pure (some newImg, s)
        | none => pure (img0, s)
      let img := fileRes.1
      let s := fileRes.2
      let pwRes ← match req.password with
        | some p =>
          if p == "" then
            pure (some (Password.plain p), s)
          else do
            let s ← checkUserPassword (some p) s
            pure (some (Password.hashed p 10), s)
        | none => pure ((none : Option Password), s)
      let pw := pwRes.1
      let s := pwRes.2
      let s ← userUpdate req.dbFail req.id req.name req.email img pw s
      send 200 "USER_UPDATED" s)

/-- deleteUser (UserCtrl source embedded in swagger.yaml): looks the row up
by primary key, destroys it and answers 204; no filesystem operation is
performed; any throw is answered with 404 USER_NOT_FOUND. -/
def deleteUser (req : UserReq) (s0 : St) : St :=
  runCatch 404 "USER_NOT_FOUND" (do
    match s0.users.find? (fun u => u.id == req.id) with
    | none => send 404 "USER_NOT_FOUND" s0
    | some _ => do
      let s ← userDestroy req.dbFail req.id s0
      send 204 "USER_DELETED" s)

/-- A JSON value in a response body. -/
inductive JVal where
  | s (v : String)
  | n (v : Nat)
  | pw (v : Password)
deriving Repr, DecidableEq

/-- Sequelize serialization of a full Users row, as res.json(user) performs
in readUser: every model attribute is included, the password among them. -/
def serializeUser (u : UserRow) : List (String × JVal) :=
  [("id", .n u.id), ("name", .s u.name), ("email", .s u.email),
   ("image", .s u.image), ("password", .pw u.password)]

/-- listUsers: maps every row to the explicit projection with id, name,
email and image only, and answers 200 with the list. -/
def listUsersBody (s : St) : List (List (String × JVal)) :=
  s.users.map (fun u =>
    [("id", JVal.n u.id), ("name", JVal.s u.name),
     ("email", JVal.s u.email), ("image", JVal.s u.image)])

/-- readUser: findByPk then res.json(user); the full row is serialized.
A missing id resolves to null and is not a body with fields. -/
def readUserBody (id : Nat) (s : St) : Option (List (String × JVal)) :=
  (s.users.find? (fun u => u.id == id)).map serializeUser

end UserCtrl

/-- A mounted Express route: method, path, middleware chain, handler. -/
structure Route where
  method : String
  path : String
  middleware : List String
  handler : String
deriving Repr, DecidableEq

/-- ImageRoute (unnamed source): GET is public; POST, PUT and DELETE pass
through checkAuth before the controller. -/
def imageRoutes : List Route :=
  [⟨"get", "/", [], "listImages"⟩,
   ⟨"post", "/", ["checkAuth"], "createImage"⟩,
   ⟨"put", "/:id", ["checkAuth"], "updateImage"⟩,
   ⟨"delete", "/:id", ["checkAuth"], "deleteImage"⟩]

/-- AuthRoute (unnamed source): all four endpoints are public. -/
def authRoutes : List Route :=
  [⟨"get", "/:id", [], "readAvatar"⟩,
   ⟨"post", "/", [], "loginUser"⟩,
   ⟨"post", "/password", [], "forgotPassword"⟩,
   ⟨"post", "/recaptcha", [], "checkRecaptcha"⟩]

/-- A sample configuration used by the concrete evaluations: bounds 2..50,
text bound 250, extension webp, storage root img/. -/
def cfgA : Config := ⟨2, 50, 250, "webp", "img/"⟩

/-- Two states that agree on everything except possibly the sent response. -/
def SentOnly (s t : St) : Prop :=
  t.images = s.images ∧ t.users = s.users ∧ t.fs = s.fs

/-- The terminal state of a computation, whether it returned or threw. -/
def term : Except St St → St
  | .ok s => s
  | .error s => s

/-! Infrastructure lemmas: how each effect step transforms the state. -/

theorem sentOnly_refl (s : St) : SentOnly s s := ⟨rfl, rfl, rfl⟩

theorem sentOnly_trans {s t u : St} (h1 : SentOnly s t) (h2 : SentOnly t u) :
    SentOnly s u :=
  ⟨h2.1.trans h1.1, h2.2.1.trans h1.2.1, h2.2.2.trans h1.2.2⟩

theorem term_ok {s : St} : term (.ok s) = s := rfl

theorem term_error {s : St} : term (.error s) = s := rfl

theorem term_bind_ok {u : St} {e : Except St St} {f : St → Except St St}
    (h : e = .ok u) : term (e >>= f) = term (f u) := by
  subst h; rfl

theorem term_bind_error {u : St} {e : Except St St} {f : St → Except St St}
    (h : e = .error u) : term (e >>= f) = u := by
  subst h; rfl

theorem pure_bind_st (u : St) (f : St → Except St St) :
    ((pure u : Except St St) >>= f) = f u := rfl

theorem send_eq_ok {c : Nat} {m : String} {s t : St} :
    send c m s = .ok t ↔ s.sent = none ∧ t = { s with sent := some ⟨c, m⟩ } := by
  unfold send; cases h : s.sent <;> simp [eq_comm]

theorem send_eq_error {c : Nat} {m : String} {s t : St} :
    send c m s = .error t ↔ s.sent ≠ none ∧ t = s := by
  unfold send; cases h : s.sent <;> simp [eq_comm]

theorem send_term_sentOnly (c : Nat) (m : String) (s : St) :
    SentOnly s (term (send c m s)) := by
  unfold send; cases s.sent <;> exact ⟨rfl, rfl, rfl⟩

theorem guardSend_ok {c : Bool} {st : Nat} {m : String} {s t : St}
    (h : guardSend c st m s = .ok t) : SentOnly s t := by
  unfold guardSend at h
  split at h
  · rcases send_eq_ok.mp h with ⟨-, rfl⟩; exact ⟨rfl, rfl, rfl⟩
  · cases h; exact sentOnly_refl s

theorem guardSend_error {c : Bool} {st : Nat} {m : String} {s t : St}
    (h : guardSend c st m s = .error t) : t = s := by
  unfold guardSend at h
  split at h
  · exact (send_eq_error.mp h).2
  · cases h

theorem guardSend_false {c : Bool} {st : Nat} {m : String} {s : St}
    (h : c = false) : guardSend c st m s = .ok s := by
  simp [guardSend, h]

theorem guardSend_sent_some {c : Bool} {st : Nat} {m : String} {s : St}
    (h : s.sent ≠ none) :
    guardSend c st m s = .ok s ∨ guardSend c st m s = .error s := by
  unfold guardSend
  split
  · right; exact send_eq_error.mpr ⟨h, rfl⟩
  · left; rfl

theorem guardSend_true_none {c : Bool} {st : Nat} {m : String} {s : St}
    (hc : c = true) (hs : s.sent = none) :
    guardSend c st m s = .ok { s with sent := some ⟨st, m⟩ } := by
  simp [guardSend, hc]
  exact send_eq_ok.mpr ⟨hs, rfl⟩

theorem unlink_ok {p : String} {s t : St} (h : unlink p s = .ok t) :
    t.images = s.images ∧ t.users = s.users ∧ t.sent = s.sent
    ∧ t.fs = s.fs.erase p := by
  unfold unlink at h
  split at h
  · cases h; exact ⟨rfl, rfl, rfl, rfl⟩
  · cases h

theorem unlink_error {p : String} {s t : St} (h : unlink p s = .error t) :
    t = s := by
  unfold unlink at h
  split at h
  · cases h
  · cases h; rfl

theorem mwSetImage_ok {root input output : String} {s t : St}
    (h : Middlewares.setImage root input output s = .ok t) :
    t.images = s.images ∧ t.users = s.users ∧ t.sent = s.sent
    ∧ t.fs = (root ++ output) :: s.fs := by
  unfold Middlewares.setImage at h
  split at h
  · cases h; exact ⟨rfl, rfl, rfl, rfl⟩
  · cases h

theorem mwSetImage_error {root input output : String} {s t : St}
    (h : Middlewares.setImage root input output s = .error t) : t = s := by
  unfold Middlewares.setImage at h
  split at h
  · cases h
  · cases h; rfl

theorem imageCreate_ok {dbFail : Bool} {url d g : String} {s t : St}
    (h : imageCreate dbFail url d g s = .ok t) :
    (∀ i ∈ s.images, ¬ i.url = url)
    ∧ t = { s with images :=
        s.images ++ [⟨nextImageId s, url, d, g⟩] } := by
  unfold imageCreate at h
  split at h
  · cases h
  · split at h
    · cases h
    · cases h
      refine ⟨fun i hi hurl => ?_, rfl⟩
      next hAny =>
        exact hAny (List.any_eq_true.mpr ⟨i, hi, by simp [hurl]⟩)

theorem imageCreate_error {dbFail : Bool} {url d g : String} {s t : St}
    (h : imageCreate dbFail url d g s = .error t) : t = s := by
  unfold imageCreate at h
  split at h
  · cases h; rfl
  · split at h
    · cases h; rfl
    · cases h

theorem imageUpdate_ok {dbFail : Bool} {id : Nat} {url d g : String} {s t : St}
    (h : imageUpdate dbFail id url d g s = .ok t) :
    t = { s with images := s.images.map (fun i =>
      if i.id = id then { i with url := url, description := d, gallery := g }
      else i) } := by
  unfold imageUpdate at h
  split at h
  · cases h
  · split at h
    · cases h
    · cases h; rfl

theorem imageUpdate_error {dbFail : Bool} {id : Nat} {url d g : String} {s t : St}
    (h : imageUpdate dbFail id url d g s = .error t) : t = s := by
  unfold imageUpdate at h
  split at h
  · cases h; rfl
  · split at h
    · cases h; rfl
    · cases h

theorem imageDestroy_ok {dbFail : Bool} {id : Nat} {s t : St}
    (h : imageDestroy dbFail id s = .ok t) :
    t = { s with images := s.images.filter (fun i => i.id != id) } := by
  unfold imageDestroy at h
  split at h
  · cases h
  · cases h; rfl

theorem imageDestroy_error {dbFail : Bool} {id : Nat} {s t : St}
    (h : imageDestroy dbFail id s = .error t) : t = s := by
  unfold imageDestroy at h
  split at h
  · cases h; rfl
  · cases h

theorem userCreate_ok {dbFail : Bool} {name email image : String}
    {pw : Password} {s t : St} (h : userCreate dbFail name email image pw s = .ok t) :
    t = { s with users := s.users ++ [⟨nextUserId s, name, email, image, pw⟩] } := by
  unfold userCreate at h
  split at h
  · cases h
  · split at h
    · cases h
    · cases h; rfl

theorem userCreate_error {dbFail : Bool} {name email image : String}
    {pw : Password} {s t : St} (h : userCreate dbFail name email image pw s = .error t) :
    t = s := by
  unfold userCreate at h
  split at h
  · cases h; rfl
  · split at h
    · cases h; rfl
    · cases h

theorem userUpdate_ok {dbFail : Bool} {id : Nat} {name email : String}
    {image : Option String} {pw : Option Password} {s t : St}
    (h : userUpdate dbFail id name email image pw s = .ok t) :
    t = { s with users := s.users.map (fun u =>
      if u.id = id then
        { u with name := name, email := email,
                 image := image.getD u.image, password := pw.getD u.password }
      else u) } := by
  unfold userUpdate at h
  split at h
  · cases h
  · split at h
    · cases h
    · cases h; rfl

theorem userUpdate_error {dbFail : Bool} {id : Nat} {name email : String}
    {image : Option String} {pw : Option Password} {s t : St}
    (h : userUpdate dbFail id name email image pw s = .error t) : t = s := by
  unfold userUpdate at h
  split at h
  · cases h; rfl
  · split at h
    · cases h; rfl
    · cases h

theorem userDestroy_ok {dbFail : Bool} {id : Nat} {s t : St}
    (h : userDestroy dbFail id s = .ok t) :
    t = { s with users := s.users.filter (fun u => u.id != id) } := by
  unfold userDestroy at h
  split at h
  · cases h
  · cases h; rfl

theorem userDestroy_error {dbFail : Bool} {id : Nat} {s t : St}
    (h : userDestroy dbFail id s = .error t) : t = s := by
  unfold userDestroy at h
  split at h
  · cases h; rfl
  · cases h

theorem bcryptHash_ok {password : Option String} {s : St} {p : Password}
    (h : UserCtrl.bcryptHash password s = .ok p) :
    ∃ q, password = some q ∧ p = Password.hashed q 10 := by
  unfold UserCtrl.bcryptHash at h
  cases password with
  | none => cases h
  | some q => cases h; exact ⟨q, rfl, rfl⟩

/-- Reducing a bind whose left side returned. -/
theorem bind_ok_st (u : St) (f : St → Except St St) :
    (Except.ok u >>= f : Except St St) = f u := rfl

/-- Reducing a bind whose left side threw. -/
theorem bind_error_st (u : St) (f : St → Except St St) :
    (Except.error u >>= f : Except St St) = .error u := rfl

/-- The catch wrapper can only add a sent response to the terminal state. -/
theorem runCatch_term (status : Nat) (msg : String) (m : Except St St) :
    SentOnly (term m) (runCatch status msg m) := by
  cases m with
  | ok s => exact sentOnly_refl s
  | error s =>
    rcases hst : s.sent with - | r <;>
      simp [runCatch, term, send, hst, SentOnly]

theorem runCatch_ok {status : Nat} {msg : String} {m : Except St St} {t : St}
    (h : m = .ok t) : runCatch status msg m = t := by
  subst h; rfl

theorem runCatch_error_none {status : Nat} {msg : String} {m : Except St St}
    {t : St} (h : m = .error t) (hs : t.sent = none) :
    runCatch status msg m = { t with sent := some ⟨status, msg⟩ } := by
  subst h
  simp [runCatch, send, hs]

theorem runCatch_error_some {status : Nat} {msg : String} {m : Except St St}
    {t : St} (h : m = .error t) (hs : t.sent ≠ none) :
    runCatch status msg m = t := by
  subst h
  rcases hst : t.sent with - | r
  · exact absurd hst hs
  · simp [runCatch, send, hst]

/-- A fold of check guards leaves everything but the sent response alone,
whether it returns or throws. -/
theorem foldGuard_sentOnly {α : Type} (p : α → Bool) (st : Nat) (m : String) :
    ∀ (l : List α) (s : St),
      SentOnly s (term (l.foldlM (fun s a => guardSend (p a) st m s) s)) := by
  intro l
  induction l with
  | nil => intro s; exact sentOnly_refl s
  | cons a l ih =>
    intro s
    rw [List.foldlM_cons]
    cases h : guardSend (p a) st m s with
    | ok u =>
      rw [bind_ok_st]
      exact sentOnly_trans (guardSend_ok h) (ih u)
    | error u =>
      rw [bind_error_st, term_error, guardSend_error h]
      exact sentOnly_refl s

/-- When no element trips the guard, the fold is the identity. -/
theorem foldGuard_none {α : Type} {p : α → Bool} {st : Nat} {m : String}
    {l : List α} (hl : ∀ a ∈ l, p a = false) (s : St) :
    l.foldlM (fun s a => guardSend (p a) st m s) s = .ok s := by
  induction l with
  | nil => rfl
  | cons a l ih =>
    rw [List.foldlM_cons, guardSend_false (hl a (List.mem_cons_self a l))]
    exact ih (fun b hb => hl b (List.mem_cons_of_mem a hb))

/-- From a state that already sent a response, the fold cannot change the
state at all. -/
theorem foldGuard_sent_some {α : Type} {p : α → Bool} {st : Nat} {m : String}
    (l : List α) (s : St) (hs : s.sent ≠ none) :
    l.foldlM (fun s a => guardSend (p a) st m s) s = .ok s
    ∨ l.foldlM (fun s a => guardSend (p a) st m s) s = .error s := by
  induction l with
  | nil => left; rfl
  | cons a l ih =>
    rw [List.foldlM_cons]
    rcases @guardSend_sent_some (p a) st m s hs with h | h
    · rw [h]
      show (l.foldlM (fun s a => guardSend (p a) st m s) s = .ok s) ∨ _
      exact ih
    · rw [h]; right; rfl

/-- When some element trips the guard and no response was sent yet, the
fold ends, returning or throwing, in the state with exactly that response
sent. -/
theorem foldGuard_hit {α : Type} {p : α → Bool} {st : Nat} {m : String} :
    ∀ (l : List α) (s : St), s.sent = none → (∃ a ∈ l, p a = true) →
      l.foldlM (fun s a => guardSend (p a) st m s) s
        = .ok { s with sent := some ⟨st, m⟩ }
      ∨ l.foldlM (fun s a => guardSend (p a) st m s) s
        = .error { s with sent := some ⟨st, m⟩ } := by
  intro l
  induction l with
  | nil => intro s _ h; rcases h with ⟨a, ha, -⟩; cases ha
  | cons a l ih =>
    intro s hs h
    rw [List.foldlM_cons]
    cases hpa : p a with
    | true =>
      rw [guardSend_true_none rfl hs, bind_ok_st]
      have : ({ s with sent := some ⟨st, m⟩ } : St).sent ≠ none := by simp
      rcases @foldGuard_sent_some α p st m l _ this with h2 | h2
      · rw [h2]; left; rfl
      · rw [h2]; right; rfl
    | false =>
      rw [guardSend_false rfl]
      show (l.foldlM (fun s a => guardSend (p a) st m s) s = .ok _) ∨ _
      refine ih s hs ?_
      rcases h with ⟨b, hb, hpb⟩
      rcases List.mem_cons.mp hb with rfl | hbl
      · rw [hpa] at hpb; cases hpb
      · exact ⟨b, hbl, hpb⟩

/-! Claim theorems. -/

/-- C9: every mutating image endpoint (POST /images, PUT /images/:id,
DELETE /images/:id) carries exactly the checkAuth middleware, while
GET /images and all four /auth endpoints carry no middleware at all. -/
theorem c9_auth_middleware_coverage :
    (imageRoutes.filter (fun r => r.method != "get")).all
      (fun r => r.middleware == ["checkAuth"]) = true
    ∧ (imageRoutes.filter (fun r => r.method == "get")).all
      (fun r => r.middleware == []) = true
    ∧ (imageRoutes.map (fun r => (r.method, r.handler))) =
      [("get", "listImages"), ("post", "createImage"),
       ("put", "updateImage"), ("delete", "deleteImage")]
    ∧ authRoutes.all (fun r => r.middleware == []) = true
    ∧ authRoutes.length = 4 := by
  decide

/-- C1 (code bug evaluation): on a row whose stored file is the literal
name undefined, updateImage with a new upload unlinks that old stored file
before Image.update; when the persist step fails the response is 400, the
row is unchanged, and the old stored file img/undefined is gone from disk,
the very outcome the spec rules out. -/
theorem c1_old_file_unlinked_before_failed_commit :
    (ImageCtrl.updateImage cfgA ⟨1, "newurl", "desc", "g", some "tmp1", 5, true⟩
      ⟨[⟨1, "undefined", "desc", "g"⟩], [], ["img/undefined", "img/tmp1"], none⟩).images
      = [⟨1, "undefined", "desc", "g"⟩]
    ∧ (ImageCtrl.updateImage cfgA ⟨1, "newurl", "desc", "g", some "tmp1", 5, true⟩
      ⟨[⟨1, "undefined", "desc", "g"⟩], [], ["img/undefined", "img/tmp1"], none⟩).sent
      = some ⟨400, "IMAGE_NOT_UPDATED"⟩
    ∧ "img/undefined" ∉ (ImageCtrl.updateImage cfgA
      ⟨1, "newurl", "desc", "g", some "tmp1", 5, true⟩
      ⟨[⟨1, "undefined", "desc", "g"⟩], [], ["img/undefined", "img/tmp1"], none⟩).fs := by
  decide

/-- C2 (code bug evaluation): a createImage request whose description fails
the validation check is answered 403 CHECK_NAME, and the row is nonetheless
created in the store: the check helpers send the response but do not stop
the handler. -/
theorem c2_failed_check_still_creates_row :
    (ImageCtrl.createImage cfgA ⟨0, "u1", "x", "g", none, 7, false⟩
      ⟨[], [], [], none⟩).sent = some ⟨403, "CHECK_NAME"⟩
    ∧ (ImageCtrl.createImage cfgA ⟨0, "u1", "x", "g", none, 7, false⟩
      ⟨[], [], [], none⟩).images = [⟨1, "u1", "x", "g"⟩] := by
  decide

/-- C4 (code bug evaluation): createUser with an uploaded temp file answers
201 and persists a row referencing the generated name Ann-9.webp, yet the
filesystem ends empty: the UserCtrl setImage body performs no operation, so
no file is materialized, and the temp upload is then unlinked, leaving zero
copies instead of exactly one new stored file. -/
theorem c4_no_file_materialized :
    (UserCtrl.createUser cfgA ⟨0, "Ann", "ann@x.com", some "Str0ngP4ss", some "t1", 9, false⟩
      ⟨[], [], ["img/users/t1"], none⟩).fs = []
    ∧ (UserCtrl.createUser cfgA ⟨0, "Ann", "ann@x.com", some "Str0ngP4ss", some "t1", 9, false⟩
      ⟨[], [], ["img/users/t1"], none⟩).users
      = [⟨1, "Ann", "ann@x.com", "Ann-9.webp", .hashed "Str0ngP4ss" 10⟩]
    ∧ (UserCtrl.createUser cfgA ⟨0, "Ann", "ann@x.com", some "Str0ngP4ss", some "t1", 9, false⟩
      ⟨[], [], ["img/users/t1"], none⟩).sent = some ⟨201, "USER_CREATED"⟩ := by
  decide

/-- C3 counterexample: for a stored user, the readUser response body does
contain a password field, refuting the claim that no read endpoint returns
one. -/
theorem c3_readUser_returns_password_field :
    (UserCtrl.readUserBody 1
      ⟨[], [⟨1, "Ann", "ann@x.com", "i.webp", .hashed "pw" 10⟩], [], none⟩).map
      (fun b => b.map Prod.fst)
    = some ["id", "name", "email", "image", "password"] := by
  decide

/-- C5 counterexample: deleteImage on a row whose stored file is absent
from disk fails with 400 IMAGE_NOT_DELETED and leaves the row in place: the
unlink raises instead of tolerating the missing file, so the delete does
not succeed. -/
theorem c5_missing_file_fails_delete :
    (ImageCtrl.deleteImage cfgA ⟨1, "", "", "", none, 0, false⟩
      ⟨[⟨1, "a.webp", "d", "g"⟩], [], [], none⟩).sent
      = some ⟨400, "IMAGE_NOT_DELETED"⟩
    ∧ (ImageCtrl.deleteImage cfgA ⟨1, "", "", "", none, 0, false⟩
      ⟨[⟨1, "a.webp", "d", "g"⟩], [], [], none⟩).images
      = [⟨1, "a.webp", "d", "g"⟩] := by
  decide

/-- C6 counterexample: an updateImage request carrying no new file but a
different url rewrites the row, so the stored filename the row references
(its url, the name deleteImage unlinks) changes from a.webp to b.webp. -/
theorem c6_update_without_file_changes_reference :
    (ImageCtrl.updateImage cfgA ⟨1, "b.webp", "desc", "g", none, 5, false⟩
      ⟨[⟨1, "a.webp", "desc", "g"⟩], [], [], none⟩).images
      = [⟨1, "b.webp", "desc", "g"⟩]
    ∧ (ImageCtrl.updateImage cfgA ⟨1, "b.webp", "desc", "g", none, 5, false⟩
      ⟨[⟨1, "a.webp", "desc", "g"⟩], [], [], none⟩).sent
      = some ⟨200, "IMAGE_UPDATED"⟩ := by
  decide

/-- C7 counterexample: a createImage request whose url equals the url of an
image in another gallery is not rejected with 403 by the uniqueness check:
the check only sees images of the request gallery, and the request dies as
a 400 create failure on the model constraint instead. -/
theorem c7_cross_gallery_collision_not_403 :
    (ImageCtrl.createImage cfgA ⟨0, "u1", "desc", "g2", none, 3, false⟩
      ⟨[⟨1, "u1", "desc", "g1"⟩], [], [], none⟩).sent
      = some ⟨400, "IMAGE_NOT_CREATED"⟩
    ∧ (ImageCtrl.createImage cfgA ⟨0, "u1", "desc", "g2", none, 3, false⟩
      ⟨[⟨1, "u1", "desc", "g1"⟩], [], [], none⟩).sent
      ≠ some ⟨403, "DISPO_URL"⟩
    ∧ (ImageCtrl.createImage cfgA ⟨0, "u1", "desc", "g2", none, 3, false⟩
      ⟨[⟨1, "u1", "desc", "g1"⟩], [], [], none⟩).images
      = [⟨1, "u1", "desc", "g1"⟩] := by
  decide

/-- C8 counterexample: updateUser with a present but empty password field
persists the raw value: the empty string is falsy, so the else branch
spreads the fields into the row and the stored password is the plaintext,
not a bcrypt hash. -/
theorem c8_empty_password_persisted_plain :
    (UserCtrl.updateUser cfgA ⟨1, "Ann2", "ann2@x.com", some "", none, 3, false⟩
      ⟨[], [⟨1, "Ann", "ann@x.com", "i.webp", .hashed "old" 10⟩], [], none⟩).users
      = [⟨1, "Ann2", "ann2@x.com", "i.webp", .plain ""⟩]
    ∧ (UserCtrl.updateUser cfgA ⟨1, "Ann2", "ann2@x.com", some "", none, 3, false⟩
      ⟨[], [⟨1, "Ann", "ann@x.com", "i.webp", .hashed "old" 10⟩], [], none⟩).sent
      = some ⟨200, "USER_UPDATED"⟩ := by
  decide

/-! Controller characterizations. -/

/-- deleteUser never touches the filesystem or the images table. -/
theorem deleteUser_frame (req : UserReq) (s : St) :
    (UserCtrl.deleteUser req s).fs = s.fs
    ∧ (UserCtrl.deleteUser req s).images = s.images := by
  unfold UserCtrl.deleteUser
  cases hf : s.users.find? (fun u => u.id == req.id) with
  | none =>
    simp only [hf]
    have h1 := runCatch_term 404 "USER_NOT_FOUND" (send 404 "USER_NOT_FOUND" s)
    have h2 := send_term_sentOnly 404 "USER_NOT_FOUND" s
    exact ⟨h1.2.2.trans h2.2.2, h1.1.trans h2.1⟩
  | some u =>
    simp only [hf]
    cases hd : userDestroy req.dbFail req.id s with
    | error t =>
      simp only [hd, bind_error_st]
      have ht := userDestroy_error hd
      subst ht
      have h1 := runCatch_term 404 "USER_NOT_FOUND" (Except.error t)
      rw [term_error] at h1
      exact ⟨h1.2.2, h1.1⟩
    | ok t =>
      simp only [hd, bind_ok_st]
      have h1 := runCatch_term 404 "USER_NOT_FOUND" (send 204 "USER_DELETED" t)
      have h2 := send_term_sentOnly 204 "USER_DELETED" t
      have ht := userDestroy_ok hd
      subst ht
      exact ⟨h1.2.2.trans h2.2.2, h1.1.trans h2.1⟩

/-- A delete of a found user with a working store destroys the matching
rows and answers 204. -/
theorem deleteUser_found_ok {req : UserReq} {s : St} (hs : s.sent = none)
    (hdb : req.dbFail = false) {v : UserRow}
    (hf : s.users.find? (fun u => u.id == req.id) = some v) :
    UserCtrl.deleteUser req s
      = { s with users := s.users.filter (fun u => u.id != req.id),
                 sent := some ⟨204, "USER_DELETED"⟩ } := by
  unfold UserCtrl.deleteUser
  simp only [hf]
  have hd : userDestroy req.dbFail req.id s
      = .ok { s with users := s.users.filter (fun u => u.id != req.id) } := by
    simp [userDestroy, hdb]
  simp only [hd, bind_ok_st]
  have hsend : send 204 "USER_DELETED"
      { s with users := s.users.filter (fun u => u.id != req.id) }
      = .ok { s with users := s.users.filter (fun u => u.id != req.id),
                     sent := some ⟨204, "USER_DELETED"⟩ } :=
    send_eq_ok.mpr ⟨hs, rfl⟩
  exact runCatch_ok hsend

/-- deleteImage on a state holding no row with the requested id answers 404
and changes nothing else. -/
theorem deleteImage_not_found {cfg : Config} {req : ImageReq} {s : St}
    (hs : s.sent = none) (hf : ∀ i ∈ s.images, ¬ i.id = req.id) :
    ImageCtrl.deleteImage cfg req s = { s with sent := some ⟨404, "IMAGE_NOT_FOUND"⟩ } := by
  unfold ImageCtrl.deleteImage
  have hfind : s.images.find? (fun i => i.id == req.id) = none := by
    rw [List.find?_eq_none]
    intro i hi
    simp [hf i hi]
  simp only [hfind]
  exact runCatch_ok (send_eq_ok.mpr ⟨hs, rfl⟩)

/-- deleteImage on a found row whose stored file is present, with a working
store, removes the file and the matching rows and answers 204. -/
theorem deleteImage_found_ok {cfg : Config} {req : ImageReq} {s : St}
    {v : ImageRow} (hs : s.sent = none) (hdb : req.dbFail = false)
    (hf : s.images.find? (fun i => i.id == req.id) = some v)
    (hfs : (cfg.imgUrl ++ v.url) ∈ s.fs) :
    ImageCtrl.deleteImage cfg req s
      = { s with images := s.images.filter (fun i => i.id != req.id),
                 fs := s.fs.erase (cfg.imgUrl ++ v.url),
                 sent := some ⟨204, "IMAGE_DELETED"⟩ } := by
  unfold ImageCtrl.deleteImage
  simp only [hf]
  have hu : unlink (cfg.imgUrl ++ v.url) s
      = .ok { s with fs := s.fs.erase (cfg.imgUrl ++ v.url) } := by
    simp [unlink, hfs]
  simp only [hu, bind_ok_st]
  have hd : imageDestroy req.dbFail req.id { s with fs := s.fs.erase (cfg.imgUrl ++ v.url) }
      = .ok { s with images := s.images.filter (fun i => i.id != req.id),
                     fs := s.fs.erase (cfg.imgUrl ++ v.url) } := by
    simp [imageDestroy, hdb]
  simp only [hd, bind_ok_st]
  exact runCatch_ok (send_eq_ok.mpr ⟨hs, rfl⟩)

/-! Claim theorems with universally quantified statements. -/

/-- C10: deleteUser mutates only the database: on every call the filesystem
and the images table are untouched, so every on-disk file, the stored image
of the deleted user included, remains; and a delete of an existing user
with a working store removes exactly the rows with that id and answers 204
USER_DELETED. -/
theorem c10_deleteUser_db_only :
    (∀ (req : UserReq) (s : St),
      (UserCtrl.deleteUser req s).fs = s.fs
      ∧ (UserCtrl.deleteUser req s).images = s.images)
    ∧ (∀ (req : UserReq) (s : St), s.sent = none → req.dbFail = false →
      (∃ u ∈ s.users, u.id = req.id) →
      (UserCtrl.deleteUser req s).users = s.users.filter (fun u => u.id != req.id)
      ∧ (UserCtrl.deleteUser req s).sent = some ⟨204, "USER_DELETED"⟩) := by
  refine ⟨deleteUser_frame, ?_⟩
  intro req s hs hdb hex
  cases hf : s.users.find? (fun u => u.id == req.id) with
  | none =>
    rcases hex with ⟨u, hu, hid⟩
    have := List.find?_eq_none.mp hf u hu
    simp [hid] at this
  | some v =>
    rw [deleteUser_found_ok hs hdb hf]
    exact ⟨rfl, rfl⟩

/-- C10 witness: the theorem applied to the delete of the one stored user,
with a file on disk that survives untouched. -/
theorem c10_deleteUser_db_only_witness :
    ((UserCtrl.deleteUser ⟨1, "", "", none, none, 0, false⟩
        ⟨[], [⟨1, "Ann", "ann@x.com", "i.webp", .hashed "p" 10⟩], ["img/users/i.webp"], none⟩).fs
      = ["img/users/i.webp"]
    ∧ (UserCtrl.deleteUser ⟨1, "", "", none, none, 0, false⟩
        ⟨[], [⟨1, "Ann", "ann@x.com", "i.webp", .hashed "p" 10⟩], ["img/users/i.webp"], none⟩).images
      = [])
    ∧ ((UserCtrl.deleteUser ⟨1, "", "", none, none, 0, false⟩
        ⟨[], [⟨1, "Ann", "ann@x.com", "i.webp", .hashed "p" 10⟩], ["img/users/i.webp"], none⟩).users
      = [⟨1, "Ann", "ann@x.com", "i.webp", .hashed "p" 10⟩].filter (fun u => u.id != 1)
    ∧ (UserCtrl.deleteUser ⟨1, "", "", none, none, 0, false⟩
        ⟨[], [⟨1, "Ann", "ann@x.com", "i.webp", .hashed "p" 10⟩], ["img/users/i.webp"], none⟩).sent
      = some ⟨204, "USER_DELETED"⟩) :=
  ⟨c10_deleteUser_db_only.1 _ _,
   c10_deleteUser_db_only.2 _ _ rfl rfl
     ⟨⟨1, "Ann", "ann@x.com", "i.webp", .hashed "p" 10⟩, by simp, rfl⟩⟩

/-- C5 (amended): deleting the same resource twice yields 404 on the second
attempt, the first attempt, when the stored file is present and the store
works, removing both the row and its file with a 204; but a missing stored
file is not tolerated, as the counterexample shows. -/
theorem c5_delete_idempotence_amended :
    (∀ (cfg : Config) (req : ImageReq) (s : St), s.sent = none →
      (∀ i ∈ s.images, ¬ i.id = req.id) →
      ImageCtrl.deleteImage cfg req s = { s with sent := some ⟨404, "IMAGE_NOT_FOUND"⟩ })
    ∧ (∀ (cfg : Config) (req : ImageReq) (s : St) (v : ImageRow),
      s.sent = none → req.dbFail = false →
      s.images.find? (fun i => i.id == req.id) = some v →
      (cfg.imgUrl ++ v.url) ∈ s.fs →
      (ImageCtrl.deleteImage cfg req s).images
        = s.images.filter (fun i => i.id != req.id)
      ∧ (ImageCtrl.deleteImage cfg req s).fs = s.fs.erase (cfg.imgUrl ++ v.url)
      ∧ (ImageCtrl.deleteImage cfg req s).sent = some ⟨204, "IMAGE_DELETED"⟩) := by
  constructor
  · intro cfg req s hs hf
    exact deleteImage_not_found hs hf
  · intro cfg req s v hs hdb hf hfs
    rw [deleteImage_found_ok hs hdb hf hfs]
    exact ⟨rfl, rfl, rfl⟩

/-- C5 witness: a first delete of image 1 removes row and file with 204;
on the resulting table, which holds no row 1, a second delete answers 404
and changes nothing. -/
theorem c5_delete_idempotence_amended_witness :
    ((ImageCtrl.deleteImage cfgA ⟨1, "", "", "", none, 0, false⟩
        ⟨[⟨1, "a.webp", "d", "g"⟩], [], ["img/a.webp"], none⟩).images
      = [⟨1, "a.webp", "d", "g"⟩].filter (fun i => i.id != 1)
    ∧ (ImageCtrl.deleteImage cfgA ⟨1, "", "", "", none, 0, false⟩
        ⟨[⟨1, "a.webp", "d", "g"⟩], [], ["img/a.webp"], none⟩).fs
      = ["img/a.webp"].erase ("img/" ++ "a.webp")
    ∧ (ImageCtrl.deleteImage cfgA ⟨1, "", "", "", none, 0, false⟩
        ⟨[⟨1, "a.webp", "d", "g"⟩], [], ["img/a.webp"], none⟩).sent
      = some ⟨204, "IMAGE_DELETED"⟩)
    ∧ ImageCtrl.deleteImage cfgA ⟨1, "", "", "", none, 0, false⟩ ⟨[], [], [], none⟩
      = { images := [], users := [], fs := [],
          sent := some ⟨404, "IMAGE_NOT_FOUND"⟩ } :=
  ⟨c5_delete_idempotence_amended.2 cfgA _ _ ⟨1, "a.webp", "d", "g"⟩ rfl rfl
      (by decide) (by decide),
   c5_delete_idempotence_amended.1 cfgA _ ⟨[], [], [], none⟩ rfl
      (by intro i hi; cases hi)⟩

/-- C3 (amended): listUsers returns every user without any password field,
while readUser serializes the full stored row, whose keys do include
password: whatever value the row holds there is returned as is. -/
theorem c3_read_endpoints_password_fields (s : St) (id : Nat) :
    (∀ b ∈ UserCtrl.listUsersBody s, "password" ∉ b.map Prod.fst)
    ∧ (∀ b, UserCtrl.readUserBody id s = some b → "password" ∈ b.map Prod.fst) := by
  constructor
  · intro b hb
    rcases List.mem_map.mp hb with ⟨u, -, rfl⟩
    simp
  · intro b hb
    unfold UserCtrl.readUserBody at hb
    rcases Option.map_eq_some'.mp hb with ⟨u, -, rfl⟩
    simp [UserCtrl.serializeUser]

/-- C3 witness: the theorem applied to a store holding one user: the list
body for that user has no password key, the read body has one. -/
theorem c3_read_endpoints_password_fields_witness :
    "password" ∉ ([("id", UserCtrl.JVal.n 1), ("name", UserCtrl.JVal.s "Ann"),
      ("email", UserCtrl.JVal.s "ann@x.com"),
      ("image", UserCtrl.JVal.s "i.webp")].map Prod.fst)
    ∧ "password" ∈ (UserCtrl.serializeUser
        ⟨1, "Ann", "ann@x.com", "i.webp", .hashed "pw" 10⟩).map Prod.fst :=
  ⟨(c3_read_endpoints_password_fields
      ⟨[], [⟨1, "Ann", "ann@x.com", "i.webp", .hashed "pw" 10⟩], [], none⟩ 1).1
      _ (by decide),
   (c3_read_endpoints_password_fields
      ⟨[], [⟨1, "Ann", "ann@x.com", "i.webp", .hashed "pw" 10⟩], [], none⟩ 1).2
      _ rfl⟩

/-- Image.create throws whenever some existing row already carries the url. -/
theorem imageCreate_collision {dbFail : Bool} {url d g : String} {s : St}
    (h : ∃ i ∈ s.images, i.url = url) :
    imageCreate dbFail url d g s = .error s := by
  have hany : s.images.any (fun i => i.url == url) = true := by
    rcases h with ⟨i, hi, hu⟩
    exact List.any_eq_true.mpr ⟨i, hi, by simp [hu]⟩
  unfold imageCreate
  cases dbFail <;> simp [hany]

/-- createImage when an image of the same gallery already carries the
candidate url: the uniqueness loop sends 403 DISPO_URL, the create then
dies on the constraint and the 400 of the catch cannot be sent anymore, so
the request ends in exactly the 403 state. -/
theorem createImage_gallery_collision {cfg : Config} {req : ImageReq} {s : St}
    (hs : s.sent = none)
    (hdesc : Middlewares.checkRange req.description cfg.stringMin cfg.textMax = true)
    (hfile : req.file = none)
    (hcol : ∃ i ∈ s.images, i.gallery = req.gallery ∧ i.url = req.url) :
    ImageCtrl.createImage cfg req s = { s with sent := some ⟨403, "DISPO_URL"⟩ } := by
  unfold ImageCtrl.createImage
  have h1 : ImageCtrl.checkImageData cfg req.description s = .ok s :=
    guardSend_false (by simp [hdesc])
  simp only [h1, bind_ok_st, ImageCtrl.checkImageUnique, hfile]
  have hhit : ∃ a ∈ s.images.filter (fun i => i.gallery == req.gallery),
      (fun i => i.url == req.url) a = true := by
    rcases hcol with ⟨i, hi, hg, hu⟩
    exact ⟨i, List.mem_filter.mpr ⟨hi, by simp [hg]⟩, by simp [hu]⟩
  have hcr : imageCreate req.dbFail req.url req.description req.gallery
      { s with sent := some ⟨403, "DISPO_URL"⟩ } = .error { s with sent := some ⟨403, "DISPO_URL"⟩ } := by
    apply imageCreate_collision
    rcases hcol with ⟨i, hi, -, hu⟩
    exact ⟨i, hi, hu⟩
  have hfold : (s.images.filter (fun i => i.gallery == req.gallery)).foldlM
        (fun s i => guardSend (i.url == req.url) 403 "DISPO_URL" s) s
        = .ok { s with sent := some ⟨403, "DISPO_URL"⟩ }
      ∨ (s.images.filter (fun i => i.gallery == req.gallery)).foldlM
        (fun s i => guardSend (i.url == req.url) 403 "DISPO_URL" s) s
        = .error { s with sent := some ⟨403, "DISPO_URL"⟩ } :=
    foldGuard_hit _ s hs hhit
  rcases hfold with h2 | h2
  · rw [h2, bind_ok_st]
    simp only [pure_bind_st, hcr, bind_error_st]
    exact runCatch_error_some rfl (by simp)
  · rw [h2, bind_error_st]
    exact runCatch_error_some rfl (by simp)

/-- createImage when the candidate url collides only with an image of a
different gallery: the gallery-scoped loop passes every check, no 403 is
sent, and the create fails on the model constraint, answered as a plain
400 failure. -/
theorem createImage_cross_gallery {cfg : Config} {req : ImageReq} {s : St}
    (hs : s.sent = none)
    (hdesc : Middlewares.checkRange req.description cfg.stringMin cfg.textMax = true)
    (hfile : req.file = none)
    (hng : ∀ i ∈ s.images, i.gallery = req.gallery → ¬ i.url = req.url)
    (hcol : ∃ i ∈ s.images, i.url = req.url) :
    ImageCtrl.createImage cfg req s
      = { s with sent := some ⟨400, "IMAGE_NOT_CREATED"⟩ } := by
  unfold ImageCtrl.createImage
  have h1 : ImageCtrl.checkImageData cfg req.description s = .ok s :=
    guardSend_false (by simp [hdesc])
  simp only [h1, bind_ok_st, ImageCtrl.checkImageUnique, hfile]
  have h2 : (s.images.filter (fun i => i.gallery == req.gallery)).foldlM
      (fun s i => guardSend (i.url == req.url) 403 "DISPO_URL" s) s = .ok s := by
    apply foldGuard_none
    intro i hi
    rcases List.mem_filter.mp hi with ⟨him, hg⟩
    have := hng i him (by simpa using hg)
    simp [this]
  rw [h2, bind_ok_st]
  have hcr : imageCreate req.dbFail req.url req.description req.gallery s = .error s :=
    imageCreate_collision hcol
  simp only [pure_bind_st, hcr, bind_error_st]
  exact runCatch_error_none rfl hs

/-- The image uniqueness loop leaves everything but the sent response
alone. -/
theorem imageFold_sentOnly (url : String) (l : List ImageRow) (s : St) :
    SentOnly s (term (l.foldlM (fun s i => ImageCtrl.checkImageUnique url i s) s)) := by
  simp only [ImageCtrl.checkImageUnique]
  exact foldGuard_sentOnly _ 403 "DISPO_URL" l s

/-- The user uniqueness loop leaves everything but the sent response
alone. -/
theorem userFold_sentOnly (name email : String) (l : List UserRow) (s : St) :
    SentOnly s (term (l.foldlM (fun s u => UserCtrl.checkUserUnique name email u s) s)) := by
  simp only [UserCtrl.checkUserUnique]
  exact foldGuard_sentOnly _ 403 "DISPO_NAME" l s

/-- Whatever path createImage takes, the images table is either unchanged
or extended by exactly the one new row, whose url was fresh. -/
theorem createImage_images_shape (cfg : Config) (req : ImageReq) (s : St) :
    (ImageCtrl.createImage cfg req s).images = s.images ∨
    ((∀ i ∈ s.images, ¬ i.url = req.url) ∧
      ∃ n, (ImageCtrl.createImage cfg req s).images
        = s.images ++ [⟨n, req.url, req.description, req.gallery⟩]) := by
  unfold ImageCtrl.createImage
  cases h1 : ImageCtrl.checkImageData cfg req.description s with
  | error u =>
    rw [bind_error_st]
    left
    have hr := runCatch_term 400 "IMAGE_NOT_CREATED" (Except.error u)
    rw [term_error] at hr
    rw [hr.1, guardSend_error h1]
  | ok u =>
    have hU := guardSend_ok h1
    rw [bind_ok_st]
    unfold_let
    cases h2 : (u.images.filter (fun i => i.gallery == req.gallery)).foldlM
        (fun s i => ImageCtrl.checkImageUnique req.url i s) u with
    | error v =>
      have hV : SentOnly u v := by
        have h := imageFold_sentOnly req.url
          (u.images.filter (fun i => i.gallery == req.gallery)) u
        rwa [h2, term_error] at h
      rw [bind_error_st]
      left
      have hr := runCatch_term 400 "IMAGE_NOT_CREATED" (Except.error v)
      rw [term_error] at hr
      rw [hr.1, hV.1, hU.1]
    | ok v =>
      have hV : SentOnly u v := by
        have h := imageFold_sentOnly req.url
          (u.images.filter (fun i => i.gallery == req.gallery)) u
        rwa [h2, term_ok] at h
      have hvs : v.images = s.images := hV.1.trans hU.1
      rw [bind_ok_st]
      beta_reduce
      cases hf : req.file with
      | none =>
        simp only [pure_bind_st]
        cases h3 : imageCreate req.dbFail req.url req.description req.gallery v with
        | error w =>
          simp only [h3, bind_error_st]
          left
          have hr := runCatch_term 400 "IMAGE_NOT_CREATED" (Except.error w)
          rw [term_error] at hr
          rw [hr.1, imageCreate_error h3, hvs]
        | ok w =>
          rcases imageCreate_ok h3 with ⟨hfresh, rfl⟩
          simp only [h3, bind_ok_st]
          right
          rw [hvs] at hfresh
          refine ⟨hfresh, nextImageId v, ?_⟩
          have hr := runCatch_term 400 "IMAGE_NOT_CREATED"
            (send 201 "IMAGE_CREATED" { v with images :=
              v.images ++ [⟨nextImageId v, req.url, req.description, req.gallery⟩] })
          have hsd := send_term_sentOnly 201 "IMAGE_CREATED" { v with images :=
              v.images ++ [⟨nextImageId v, req.url, req.description, req.gallery⟩] }
          rw [hr.1, hsd.1]
          simp [hvs]
      | some nf =>
        cases h4 : ImageCtrl.setImages cfg nf (toString req.now ++ "." ++ cfg.imgExt) v with
        | error w =>
          simp only [h4, bind_error_st]
          left
          have hr := runCatch_term 400 "IMAGE_NOT_CREATED" (Except.error w)
          rw [term_error] at hr
          rw [hr.1, mwSetImage_error h4, hvs]
        | ok w =>
          have hW : w.images = v.images := (mwSetImage_ok h4).1
          simp only [h4, bind_ok_st]
          cases h5 : unlink (cfg.imgUrl ++ nf) w with
          | error x =>
            simp only [h5, bind_error_st]
            left
            have hr := runCatch_term 400 "IMAGE_NOT_CREATED" (Except.error x)
            rw [term_error] at hr
            rw [hr.1, unlink_error h5, hW, hvs]
          | ok x =>
            have hX : x.images = w.images := (unlink_ok h5).1
            have hxs : x.images = s.images := (hX.trans hW).trans hvs
            simp only [h5, bind_ok_st]
            cases h6 : imageCreate req.dbFail req.url req.description req.gallery x with
            | error y =>
              simp only [h6, bind_error_st]
              left
              have hr := runCatch_term 400 "IMAGE_NOT_CREATED" (Except.error y)
              rw [term_error] at hr
              rw [hr.1, imageCreate_error h6, hxs]
            | ok y =>
              rcases imageCreate_ok h6 with ⟨hfresh, rfl⟩
              simp only [h6, bind_ok_st]
              right
              rw [hxs] at hfresh
              refine ⟨hfresh, nextImageId x, ?_⟩
              have hr := runCatch_term 400 "IMAGE_NOT_CREATED"
                (send 201 "IMAGE_CREATED" { x with images :=
                  x.images ++ [⟨nextImageId x, req.url, req.description, req.gallery⟩] })
              have hsd := send_term_sentOnly 201 "IMAGE_CREATED" { x with images :=
                  x.images ++ [⟨nextImageId x, req.url, req.description, req.gallery⟩] }
              rw [hr.1, hsd.1]
              simp [hxs]

/-- C7 (amended): url uniqueness is enforced at two levels with different
outcomes: the controller check is scoped to the request gallery and sends
403 DISPO_URL exactly on a collision inside that gallery; a collision with
an image of another gallery passes the check and dies only as a 400 create
failure on the model unique constraint; in both cases no row is created,
and createImage preserves pairwise-distinct urls across all images. -/
theorem c7_url_uniqueness_scope :
    (∀ (cfg : Config) (req : ImageReq) (s : St),
      s.sent = none →
      Middlewares.checkRange req.description cfg.stringMin cfg.textMax = true →
      req.file = none →
      (∃ i ∈ s.images, i.gallery = req.gallery ∧ i.url = req.url) →
      ImageCtrl.createImage cfg req s = { s with sent := some ⟨403, "DISPO_URL"⟩ })
    ∧ (∀ (cfg : Config) (req : ImageReq) (s : St),
      s.sent = none →
      Middlewares.checkRange req.description cfg.stringMin cfg.textMax = true →
      req.file = none →
      (∀ i ∈ s.images, i.gallery = req.gallery → ¬ i.url = req.url) →
      (∃ i ∈ s.images, i.url = req.url) →
      ImageCtrl.createImage cfg req s
        = { s with sent := some ⟨400, "IMAGE_NOT_CREATED"⟩ })
    ∧ (∀ (cfg : Config) (req : ImageReq) (s : St),
      s.images.Pairwise (fun a b => ¬ a.url = b.url) →
      (ImageCtrl.createImage cfg req s).images.Pairwise (fun a b => ¬ a.url = b.url)) := by
  refine ⟨fun cfg req s hs hd hf hc => createImage_gallery_collision hs hd hf hc,
          fun cfg req s hs hd hf hng hc => createImage_cross_gallery hs hd hf hng hc,
          fun cfg req s hp => ?_⟩
  rcases createImage_images_shape cfg req s with h | ⟨hfresh, n, h⟩
  · rwa [h]
  · rw [h, List.pairwise_append]
    refine ⟨hp, List.pairwise_singleton _ _, ?_⟩
    intro a ha b hb
    have hb2 : b = ⟨n, req.url, req.description, req.gallery⟩ := List.mem_singleton.mp hb
    subst hb2
    exact hfresh a ha

/-- C7 witness: a same-gallery collision ends as the 403 state, a
cross-gallery collision as the 400 state with the table intact, and a
create over a table with distinct urls keeps them distinct. -/
theorem c7_url_uniqueness_scope_witness :
    ImageCtrl.createImage cfgA ⟨0, "u1", "desc", "g1", none, 3, false⟩
      ⟨[⟨1, "u1", "d", "g1"⟩], [], [], none⟩
      = { images := [⟨1, "u1", "d", "g1"⟩], users := [], fs := [],
          sent := some ⟨403, "DISPO_URL"⟩ }
    ∧ ImageCtrl.createImage cfgA ⟨0, "u1", "desc", "g2", none, 3, false⟩
      ⟨[⟨1, "u1", "d", "g1"⟩], [], [], none⟩
      = { images := [⟨1, "u1", "d", "g1"⟩], users := [], fs := [],
          sent := some ⟨400, "IMAGE_NOT_CREATED"⟩ }
    ∧ (ImageCtrl.createImage cfgA ⟨0, "u2", "desc", "g1", none, 3, false⟩
      ⟨[⟨1, "u1", "d", "g1"⟩], [], [], none⟩).images.Pairwise
        (fun a b => ¬ a.url = b.url) :=
  ⟨c7_url_uniqueness_scope.1 cfgA _ _ rfl (by decide) rfl
      ⟨⟨1, "u1", "d", "g1"⟩, by simp, rfl, rfl⟩,
   c7_url_uniqueness_scope.2.1 cfgA _ _ rfl (by decide) rfl
      (by decide) ⟨⟨1, "u1", "d", "g1"⟩, by simp, rfl⟩,
   c7_url_uniqueness_scope.2.2 cfgA _ _ (by decide)⟩

theorem bind_ok_t {α β : Type} (u : α) (f : α → Except St β) :
    (Except.ok u >>= f : Except St β) = f u := rfl

theorem bind_error_t {α β : Type} (f : α → Except St β) (e : St) :
    (Except.error e >>= f : Except St β) = .error e := rfl

theorem pure_bind_t {α β : Type} (u : α) (f : α → Except St β) :
    ((pure u : Except St α) >>= f) = f u := rfl

/-- When User.update succeeds with the image argument read back from the
found row, every resulting row is an original or carries the image of the
row found under the requested id. -/
theorem userUpdate_ok_image (req : UserReq) {img : Option String} {pw : Option Password}
    {x t : St} {base : List UserRow}
    (hx : x.users = base)
    (himg : img = (base.find? (fun w => w.id == req.id)).map (fun w => w.image))
    (h : userUpdate req.dbFail req.id req.name req.email img pw x = .ok t) :
    ∀ u2 ∈ t.users, u2 ∈ base
      ∨ (u2.id = req.id ∧ ∃ w ∈ base, w.id = req.id ∧ u2.image = w.image) := by
  have ht := userUpdate_ok h
  subst ht
  intro u2 hu2
  simp only [hx] at hu2
  rcases List.mem_map.mp hu2 with ⟨w0, hw0, rfl⟩
  by_cases hid : w0.id = req.id
  · right
    simp only [if_pos hid]
    cases hfind : base.find? (fun w => w.id == req.id) with
    | none =>
      have := List.find?_eq_none.mp hfind w0 hw0
      simp [hid] at this
    | some w1 =>
      have hw1mem := List.mem_of_find?_eq_some hfind
      have hw1id : w1.id = req.id := by
        have := List.find?_some hfind
        simpa using this
      rw [himg, hfind]
      exact ⟨hid, w1, hw1mem, hw1id, by simp⟩
  · left
    simp only [if_neg hid]
    exact hw0

/-- updateUser without a new file: every resulting row is an original row
or has the image carried over from the row found under the requested id,
whatever the password branch and however any step fails. -/
theorem updateUser_noFile_image (cfg : Config) (req : UserReq) (s : St)
    (hf : req.file = none) :
    ∀ u2 ∈ (UserCtrl.updateUser cfg req s).users,
      u2 ∈ s.users
      ∨ (u2.id = req.id ∧ ∃ w ∈ s.users, w.id = req.id ∧ u2.image = w.image) := by
  unfold UserCtrl.updateUser
  cases h1 : UserCtrl.checkUserData cfg req.name req.email s with
  | error u =>
    rw [bind_error_st]
    intro u2 hu2
    left
    have hr := runCatch_term 400 "USER_NOT_UPDATED" (Except.error u)
    rw [term_error] at hr
    rw [hr.2.1, guardSend_error h1] at hu2
    exact hu2
  | ok u =>
    have hU := guardSend_ok h1
    rw [bind_ok_st]
    unfold_let
    cases hE : u.users.isEmpty with
    | true =>
      rw [if_pos rfl]
      intro u2 hu2
      left
      have hr := runCatch_term 400 "USER_NOT_UPDATED" (send 404 "USER_NOT_FOUND" u)
      have hsd := send_term_sentOnly 404 "USER_NOT_FOUND" u
      rw [hr.2.1, hsd.2.1, hU.2.1] at hu2
      exact hu2
    | false =>
      rw [if_neg (by simp)]
      cases h2 : (u.users.filter (fun v => v.id != req.id)).foldlM
          (fun s v => UserCtrl.checkUserUnique req.name req.email v s) u with
      | error v =>
        have hV : SentOnly u v := by
          have h := userFold_sentOnly req.name req.email
            (u.users.filter (fun v => v.id != req.id)) u
          rwa [h2, term_error] at h
        rw [bind_error_st]
        intro u2 hu2
        left
        have hr := runCatch_term 400 "USER_NOT_UPDATED" (Except.error v)
        rw [term_error] at hr
        rw [hr.2.1, hV.2.1, hU.2.1] at hu2
        exact hu2
      | ok v =>
        have hV : SentOnly u v := by
          have h := userFold_sentOnly req.name req.email
            (u.users.filter (fun v => v.id != req.id)) u
          rwa [h2, term_ok] at h
        have hvs : v.users = s.users := hV.2.1.trans hU.2.1
        rw [bind_ok_st]
        beta_reduce
        rw [hf]
        simp only [pure_bind_t]
        cases hp : req.password with
        | none =>
          cases h6 : userUpdate req.dbFail req.id req.name req.email
              ((v.users.find? (fun w => w.id == req.id)).map (fun w => w.image))
              none v with
          | error w =>
            rw [bind_error_st]
            intro u2 hu2
            left
            have hr := runCatch_term 400 "USER_NOT_UPDATED" (Except.error w)
            rw [term_error] at hr
            rw [hr.2.1, userUpdate_error h6, hvs] at hu2
            exact hu2
          | ok w =>
            rw [bind_ok_st]
            intro u2 hu2
            have hr := runCatch_term 400 "USER_NOT_UPDATED" (send 200 "USER_UPDATED" w)
            have hsd := send_term_sentOnly 200 "USER_UPDATED" w
            rw [hr.2.1, hsd.2.1] at hu2
            exact userUpdate_ok_image req hvs (by rw [hvs]) h6 u2 hu2
        | some p =>
          simp only []
          cases hpe : p == "" with
          | true =>
            rw [if_pos rfl]
            cases h6 : userUpdate req.dbFail req.id req.name req.email
                ((v.users.find? (fun w => w.id == req.id)).map (fun w => w.image))
                (some (Password.plain p)) v with
            | error w =>
              rw [bind_error_st]
              intro u2 hu2
              left
              have hr := runCatch_term 400 "USER_NOT_UPDATED" (Except.error w)
              rw [term_error] at hr
              rw [hr.2.1, userUpdate_error h6, hvs] at hu2
              exact hu2
            | ok w =>
              rw [bind_ok_st]
              intro u2 hu2
              have hr := runCatch_term 400 "USER_NOT_UPDATED" (send 200 "USER_UPDATED" w)
              have hsd := send_term_sentOnly 200 "USER_UPDATED" w
              rw [hr.2.1, hsd.2.1] at hu2
              exact userUpdate_ok_image req hvs (by rw [hvs]) h6 u2 hu2
          | false =>
            rw [if_neg (by simp)]
            cases h5 : UserCtrl.checkUserPassword (some p) v with
            | error y =>
              rw [bind_error_st]
              intro u2 hu2
              left
              have hr := runCatch_term 400 "USER_NOT_UPDATED" (Except.error y)
              rw [term_error] at hr
              rw [hr.2.1, guardSend_error h5, hvs] at hu2
              exact hu2
            | ok y =>
              have hY : SentOnly v y := guardSend_ok h5
              rw [bind_ok_st]
              cases h6 : userUpdate req.dbFail req.id req.name req.email
                  ((v.users.find? (fun w => w.id == req.id)).map (fun w => w.image))
                  (some (Password.hashed p 10)) y with
              | error w =>
                rw [bind_error_st]
                intro u2 hu2
                left
                have hr := runCatch_term 400 "USER_NOT_UPDATED" (Except.error w)
                rw [term_error] at hr
                rw [hr.2.1, userUpdate_error h6, hY.2.1, hvs] at hu2
                exact hu2
              | ok w =>
                rw [bind_ok_st]
                intro u2 hu2
                have hr := runCatch_term 400 "USER_NOT_UPDATED" (send 200 "USER_UPDATED" w)
                have hsd := send_term_sentOnly 200 "USER_UPDATED" w
                rw [hr.2.1, hsd.2.1] at hu2
                exact userUpdate_ok_image req (hY.2.1.trans hvs) (by rw [hvs]) h6 u2 hu2

/-- When Image.update succeeds, every resulting row is an original or the
requested row rewritten with the request fields, its url taken from the
request. -/
theorem imageUpdate_ok_url (req : ImageReq) {x t : St} {base : List ImageRow}
    (hx : x.images = base)
    (h : imageUpdate req.dbFail req.id req.url req.description req.gallery x = .ok t) :
    ∀ i2 ∈ t.images, i2 ∈ base ∨ (i2.id = req.id ∧ i2.url = req.url) := by
  have ht := imageUpdate_ok h
  subst ht
  intro i2 hi2
  simp only [hx] at hi2
  rcases List.mem_map.mp hi2 with ⟨i0, hi0, rfl⟩
  by_cases hid : i0.id = req.id
  · right
    simp only [if_pos hid]
    exact ⟨hid, by simp⟩
  · left
    simp only [if_neg hid]
    exact hi0

/-- Whatever path updateImage takes, every resulting row is an original row
or the requested row rewritten with the request fields, so the url the row
references afterwards is the url of the request. -/
theorem updateImage_url_shape (cfg : Config) (req : ImageReq) (s : St) :
    ∀ i2 ∈ (ImageCtrl.updateImage cfg req s).images,
      i2 ∈ s.images ∨ (i2.id = req.id ∧ i2.url = req.url) := by
  unfold ImageCtrl.updateImage
  cases h1 : ImageCtrl.checkImageData cfg req.description s with
  | error u =>
    rw [bind_error_st]
    intro i2 hi2
    left
    have hr := runCatch_term 400 "IMAGE_NOT_UPDATED" (Except.error u)
    rw [term_error] at hr
    rw [hr.1, guardSend_error h1] at hi2
    exact hi2
  | ok u =>
    have hU := guardSend_ok h1
    rw [bind_ok_st]
    unfold_let
    cases hE : (u.images.filter (fun i => i.gallery == req.gallery)).isEmpty with
    | true =>
      rw [if_pos rfl]
      intro i2 hi2
      left
      have hr := runCatch_term 400 "IMAGE_NOT_UPDATED" (send 404 "IMAGES_NOT_FOUND" u)
      have hsd := send_term_sentOnly 404 "IMAGES_NOT_FOUND" u
      rw [hr.1, hsd.1, hU.1] at hi2
      exact hi2
    | false =>
      rw [if_neg (by simp)]
      cases h2 : ((u.images.filter (fun i => i.gallery == req.gallery)).filter
          (fun i => i.id != req.id)).foldlM
          (fun s i => ImageCtrl.checkImageUnique req.url i s) u with
      | error v =>
        have hV : SentOnly u v := by
          have h := imageFold_sentOnly req.url
            ((u.images.filter (fun i => i.gallery == req.gallery)).filter
              (fun i => i.id != req.id)) u
          rwa [h2, term_error] at h
        rw [bind_error_st]
        intro i2 hi2
        left
        have hr := runCatch_term 400 "IMAGE_NOT_UPDATED" (Except.error v)
        rw [term_error] at hr
        rw [hr.1, hV.1, hU.1] at hi2
        exact hi2
      | ok v =>
        have hV : SentOnly u v := by
          have h := imageFold_sentOnly req.url
            ((u.images.filter (fun i => i.gallery == req.gallery)).filter
              (fun i => i.id != req.id)) u
          rwa [h2, term_ok] at h
        have hvs : v.images = s.images := hV.1.trans hU.1
        rw [bind_ok_st]
        beta_reduce
        cases hf : req.file with
        | none =>
          simp only [pure_bind_t]
          cases h6 : imageUpdate req.dbFail req.id req.url req.description req.gallery v with
          | error w =>
            rw [bind_error_st]
            intro i2 hi2
            left
            have hr := runCatch_term 400 "IMAGE_NOT_UPDATED" (Except.error w)
            rw [term_error] at hr
            rw [hr.1, imageUpdate_error h6, hvs] at hi2
            exact hi2
          | ok w =>
            rw [bind_ok_st]
            intro i2 hi2
            have hr := runCatch_term 400 "IMAGE_NOT_UPDATED" (send 200 "IMAGE_UPDATED" w)
            have hsd := send_term_sentOnly 200 "IMAGE_UPDATED" w
            rw [hr.1, hsd.1] at hi2
            exact imageUpdate_ok_url req hvs h6 i2 hi2
        | some nf =>
          simp only []
          cases h3 : unlink (cfg.imgUrl ++ jsStr (((u.images.filter
              (fun i => i.gallery == req.gallery)).find?
              (fun i => i.id == req.id)).bind ImageRow.imageAttr)) v with
          | error w =>
            rw [bind_error_st]
            intro i2 hi2
            left
            have hr := runCatch_term 400 "IMAGE_NOT_UPDATED" (Except.error w)
            rw [term_error] at hr
            rw [hr.1, unlink_error h3, hvs] at hi2
            exact hi2
          | ok w =>
            have hW : w.images = v.images := (unlink_ok h3).1
            rw [bind_ok_st]
            cases h4 : ImageCtrl.setImages cfg nf req.url w with
            | error x =>
              rw [bind_error_st]
              intro i2 hi2
              left
              have hr := runCatch_term 400 "IMAGE_NOT_UPDATED" (Except.error x)
              rw [term_error] at hr
              rw [hr.1, mwSetImage_error h4, hW, hvs] at hi2
              exact hi2
            | ok x =>
              have hX : x.images = w.images := (mwSetImage_ok h4).1
              rw [bind_ok_st]
              cases h5 : unlink (cfg.imgUrl ++ nf) x with
              | error y =>
                rw [bind_error_st]
                intro i2 hi2
                left
                have hr := runCatch_term 400 "IMAGE_NOT_UPDATED" (Except.error y)
                rw [term_error] at hr
                rw [hr.1, unlink_error h5, hX, hW, hvs] at hi2
                exact hi2
              | ok y =>
                have hY : y.images = x.images := (unlink_ok h5).1
                have hys : y.images = s.images := ((hY.trans hX).trans hW).trans hvs
                rw [bind_ok_st]
                cases h6 : imageUpdate req.dbFail req.id req.url req.description req.gallery y with
                | error w2 =>
                  rw [bind_error_st]
                  intro i2 hi2
                  left
                  have hr := runCatch_term 400 "IMAGE_NOT_UPDATED" (Except.error w2)
                  rw [term_error] at hr
                  rw [hr.1, imageUpdate_error h6, hys] at hi2
                  exact hi2
                | ok w2 =>
                  rw [bind_ok_st]
                  intro i2 hi2
                  have hr := runCatch_term 400 "IMAGE_NOT_UPDATED" (send 200 "IMAGE_UPDATED" w2)
                  have hsd := send_term_sentOnly 200 "IMAGE_UPDATED" w2
                  rw [hr.1, hsd.1] at hi2
                  exact imageUpdate_ok_url req hys h6 i2 hi2

/-- C6 (amended): an update without a new uploaded file performs no file
replacement; for a User the image field of the rewritten row is carried
over from the stored row, while for an Image the rewritten row takes its
url, the stored-filename reference, from the request, preserved only when
the request repeats the stored value. -/
theorem c6_update_without_file :
    (∀ (cfg : Config) (req : UserReq) (s : St), req.file = none →
      ∀ u2 ∈ (UserCtrl.updateUser cfg req s).users,
        u2 ∈ s.users
        ∨ (u2.id = req.id ∧ ∃ w ∈ s.users, w.id = req.id ∧ u2.image = w.image))
    ∧ (∀ (cfg : Config) (req : ImageReq) (s : St), req.file = none →
      ∀ i2 ∈ (ImageCtrl.updateImage cfg req s).images,
        i2 ∈ s.images ∨ (i2.id = req.id ∧ i2.url = req.url)) :=
  ⟨updateUser_noFile_image,
   fun cfg req s _ => updateImage_url_shape cfg req s⟩

/-- C6 witness: the theorem applied to an update of user 1 without a file,
whose resulting row keeps the stored image, and to an update of image 1
without a file, whose resulting row takes the request url. -/
theorem c6_update_without_file_witness :
    ((⟨1, "Ann2", "ann2@x.com", "i.webp", .hashed "old" 10⟩ : UserRow)
        ∈ ([⟨1, "Ann", "ann@x.com", "i.webp", .hashed "old" 10⟩] : List UserRow)
      ∨ ((1 : Nat) = 1
        ∧ ∃ w ∈ ([⟨1, "Ann", "ann@x.com", "i.webp", .hashed "old" 10⟩] : List UserRow),
            w.id = 1 ∧ "i.webp" = w.image))
    ∧ ((⟨1, "b.webp", "desc", "g"⟩ : ImageRow)
        ∈ ([⟨1, "a.webp", "desc", "g"⟩] : List ImageRow)
      ∨ ((1 : Nat) = 1 ∧ "b.webp" = "b.webp")) :=
  ⟨c6_update_without_file.1 cfgA ⟨1, "Ann2", "ann2@x.com", none, none, 3, false⟩
      ⟨[], [⟨1, "Ann", "ann@x.com", "i.webp", .hashed "old" 10⟩], [], none⟩ rfl
      ⟨1, "Ann2", "ann2@x.com", "i.webp", .hashed "old" 10⟩ (by decide),
   c6_update_without_file.2 cfgA ⟨1, "b.webp", "desc", "g", none, 5, false⟩
      ⟨[⟨1, "a.webp", "desc", "g"⟩], [], [], none⟩ rfl
      ⟨1, "b.webp", "desc", "g"⟩ (by decide)⟩

theorem bcryptHash_error {password : Option String} {s t : St}
    (h : UserCtrl.bcryptHash password s = .error t) : t = s := by
  unfold UserCtrl.bcryptHash at h
  cases password with
  | none => cases h; rfl
  | some p => cases h

/-- When User.update succeeds with a cost-10 hash as the password argument,
every resulting row keeps the password of an original row or carries that
hash. -/
theorem userUpdate_ok_password (req : UserReq) {img : Option String} {p : String}
    {x t : St} {base : List UserRow} (hx : x.users = base)
    (h : userUpdate req.dbFail req.id req.name req.email img
      (some (Password.hashed p 10)) x = .ok t) :
    ∀ u2 ∈ t.users,
      (∃ w ∈ base, u2.password = w.password) ∨ u2.password = Password.hashed p 10 := by
  have ht := userUpdate_ok h
  subst ht
  intro u2 hu2
  simp only [hx] at hu2
  rcases List.mem_map.mp hu2 with ⟨w0, hw0, rfl⟩
  by_cases hid : w0.id = req.id
  · right
    simp [if_pos hid]
  · left
    exact ⟨w0, hw0, by simp [if_neg hid]⟩

/-- updateUser with a present, non-empty password: every resulting row
keeps the password of an original row or carries the cost-10 bcrypt hash of
the request password, whatever the file branch and however any step
fails. -/
theorem updateUser_password_shape (cfg : Config) (req : UserReq) (s : St)
    (p : String) (hp : req.password = some p) (hne : ¬ p = "") :
    ∀ u2 ∈ (UserCtrl.updateUser cfg req s).users,
      (∃ w ∈ s.users, u2.password = w.password)
      ∨ u2.password = Password.hashed p 10 := by
  unfold UserCtrl.updateUser
  cases h1 : UserCtrl.checkUserData cfg req.name req.email s with
  | error u =>
    rw [bind_error_st]
    intro u2 hu2
    left
    have hr := runCatch_term 400 "USER_NOT_UPDATED" (Except.error u)
    rw [term_error] at hr
    rw [hr.2.1, guardSend_error h1] at hu2
    exact ⟨u2, hu2, rfl⟩
  | ok u =>
    have hU := guardSend_ok h1
    rw [bind_ok_st]
    unfold_let
    cases hE : u.users.isEmpty with
    | true =>
      rw [if_pos rfl]
      intro u2 hu2
      left
      have hr := runCatch_term 400 "USER_NOT_UPDATED" (send 404 "USER_NOT_FOUND" u)
      have hsd := send_term_sentOnly 404 "USER_NOT_FOUND" u
      rw [hr.2.1, hsd.2.1, hU.2.1] at hu2
      exact ⟨u2, hu2, rfl⟩
    | false =>
      rw [if_neg (by simp)]
      cases h2 : (u.users.filter (fun v => v.id != req.id)).foldlM
          (fun s v => UserCtrl.checkUserUnique req.name req.email v s) u with
      | error v =>
        have hV : SentOnly u v := by
          have h := userFold_sentOnly req.name req.email
            (u.users.filter (fun v => v.id != req.id)) u
          rwa [h2, term_error] at h
        rw [bind_error_st]
        intro u2 hu2
        left
        have hr := runCatch_term 400 "USER_NOT_UPDATED" (Except.error v)
        rw [term_error] at hr
        rw [hr.2.1, hV.2.1, hU.2.1] at hu2
        exact ⟨u2, hu2, rfl⟩
      | ok v =>
        have hV : SentOnly u v := by
          have h := userFold_sentOnly req.name req.email
            (u.users.filter (fun v => v.id != req.id)) u
          rwa [h2, term_ok] at h
        have hvs : v.users = s.users := hV.2.1.trans hU.2.1
        rw [bind_ok_st]
        beta_reduce
        cases hf : req.file with
        | none =>
          simp only [pure_bind_t]
          rw [hp]
          simp only []
          rw [if_neg (by simp [hne])]
          cases h5 : UserCtrl.checkUserPassword (some p) v with
          | error y =>
            rw [bind_error_st]
            intro u2 hu2
            left
            have hr := runCatch_term 400 "USER_NOT_UPDATED" (Except.error y)
            rw [term_error] at hr
            rw [hr.2.1, guardSend_error h5, hvs] at hu2
            exact ⟨u2, hu2, rfl⟩
          | ok y =>
            have hY : SentOnly v y := guardSend_ok h5
            rw [bind_ok_st]
            cases h6 : userUpdate req.dbFail req.id req.name req.email
                ((v.users.find? (fun w => w.id == req.id)).map (fun w => w.image))
                (some (Password.hashed p 10)) y with
            | error w =>
              rw [bind_error_st]
              intro u2 hu2
              left
              have hr := runCatch_term 400 "USER_NOT_UPDATED" (Except.error w)
              rw [term_error] at hr
              rw [hr.2.1, userUpdate_error h6, hY.2.1, hvs] at hu2
              exact ⟨u2, hu2, rfl⟩
            | ok w =>
              rw [bind_ok_st]
              intro u2 hu2
              have hr := runCatch_term 400 "USER_NOT_UPDATED" (send 200 "USER_UPDATED" w)
              have hsd := send_term_sentOnly 200 "USER_UPDATED" w
              rw [hr.2.1, hsd.2.1] at hu2
              exact userUpdate_ok_password req (hY.2.1.trans hvs) h6 u2 hu2
        | some nf =>
          simp only [UserCtrl.setImage, bind_ok_st]
          cases h3 : unlink (UserCtrl.usersImg cfg ++ nf) v with
          | error w =>
            rw [bind_error_st]
            intro u2 hu2
            left
            have hr := runCatch_term 400 "USER_NOT_UPDATED" (Except.error w)
            rw [term_error] at hr
            rw [hr.2.1, unlink_error h3, hvs] at hu2
            exact ⟨u2, hu2, rfl⟩
          | ok w =>
            have hW : w.users = v.users := (unlink_ok h3).2.1
            rw [bind_ok_st]
            simp only [pure_bind_t]
            rw [hp]
            simp only []
            rw [if_neg (by simp [hne])]
            cases h5 : UserCtrl.checkUserPassword (some p) w with
            | error y =>
              rw [bind_error_st]
              intro u2 hu2
              left
              have hr := runCatch_term 400 "USER_NOT_UPDATED" (Except.error y)
              rw [term_error] at hr
              rw [hr.2.1, guardSend_error h5, hW, hvs] at hu2
              exact ⟨u2, hu2, rfl⟩
            | ok y =>
              have hY : SentOnly w y := guardSend_ok h5
              rw [bind_ok_st]
              cases h6 : userUpdate req.dbFail req.id req.name req.email
                  (some (Middlewares.getName req.name ++ "-" ++ toString req.now
                    ++ "." ++ cfg.imgExt))
                  (some (Password.hashed p 10)) y with
              | error w2 =>
                rw [bind_error_st]
                intro u2 hu2
                left
                have hr := runCatch_term 400 "USER_NOT_UPDATED" (Except.error w2)
                rw [term_error] at hr
                rw [hr.2.1, userUpdate_error h6, hY.2.1, hW, hvs] at hu2
                exact ⟨u2, hu2, rfl⟩
              | ok w2 =>
                rw [bind_ok_st]
                intro u2 hu2
                have hr := runCatch_term 400 "USER_NOT_UPDATED" (send 200 "USER_UPDATED" w2)
                have hsd := send_term_sentOnly 200 "USER_UPDATED" w2
                rw [hr.2.1, hsd.2.1] at hu2
                exact userUpdate_ok_password req ((hY.2.1.trans hW).trans hvs) h6 u2 hu2

/-- createUser: every row in the resulting table is an original row or the
newly appended row, whose password is the cost-10 bcrypt hash of the
request password, whatever the file branch and however any step fails. -/
theorem createUser_password_shape (cfg : Config) (req : UserReq) (s : St) :
    ∀ u2 ∈ (UserCtrl.createUser cfg req s).users,
      u2 ∈ s.users
      ∨ ∃ p, req.password = some p ∧ u2.password = Password.hashed p 10 := by
  unfold UserCtrl.createUser
  cases h1 : UserCtrl.checkUserData cfg req.name req.email s with
  | error u =>
    rw [bind_error_st]
    intro u2 hu2
    left
    have hr := runCatch_term 400 "USER_NOT_CREATED" (Except.error u)
    rw [term_error] at hr
    rw [hr.2.1, guardSend_error h1] at hu2
    exact hu2
  | ok u =>
    have hU := guardSend_ok h1
    rw [bind_ok_st]
    cases h2 : UserCtrl.checkUserPassword req.password u with
    | error v =>
      rw [bind_error_st]
      intro u2 hu2
      left
      have hr := runCatch_term 400 "USER_NOT_CREATED" (Except.error v)
      rw [term_error] at hr
      rw [hr.2.1, guardSend_error h2, hU.2.1] at hu2
      exact hu2
    | ok v =>
      have hV : SentOnly u v := guardSend_ok h2
      have hvs : v.users = s.users := hV.2.1.trans hU.2.1
      rw [bind_ok_st]
      unfold_let
      cases h3 : v.users.foldlM
          (fun s w => UserCtrl.checkUserUnique req.name req.email w s) v with
      | error w =>
        have hW : SentOnly v w := by
          have h := userFold_sentOnly req.name req.email v.users v
          rwa [h3, term_error] at h
        rw [bind_error_st]
        intro u2 hu2
        left
        have hr := runCatch_term 400 "USER_NOT_CREATED" (Except.error w)
        rw [term_error] at hr
        rw [hr.2.1, hW.2.1, hvs] at hu2
        exact hu2
      | ok w =>
        have hW : SentOnly v w := by
          have h := userFold_sentOnly req.name req.email v.users v
          rwa [h3, term_ok] at h
        have hws : w.users = s.users := hW.2.1.trans hvs
        rw [bind_ok_st]
        beta_reduce
        cases hf : req.file with
        | none =>
          simp only [pure_bind_t]
          cases hB : UserCtrl.bcryptHash req.password w with
          | error y =>
            rw [bind_error_t]
            intro u2 hu2
            left
            have hr := runCatch_term 400 "USER_NOT_CREATED" (Except.error y)
            rw [term_error] at hr
            rw [hr.2.1, bcryptHash_error hB, hws] at hu2
            exact hu2
          | ok hash =>
            rcases bcryptHash_ok hB with ⟨q, hq, rfl⟩
            rw [bind_ok_t]
            cases h6 : userCreate req.dbFail req.name req.email
                (Middlewares.getName req.name ++ "-" ++ toString req.now
                  ++ "." ++ cfg.imgExt) (Password.hashed q 10) w with
            | error z =>
              rw [bind_error_st]
              intro u2 hu2
              left
              have hr := runCatch_term 400 "USER_NOT_CREATED" (Except.error z)
              rw [term_error] at hr
              rw [hr.2.1, userCreate_error h6, hws] at hu2
              exact hu2
            | ok z =>
              rw [bind_ok_st]
              intro u2 hu2
              have hr := runCatch_term 400 "USER_NOT_CREATED"
                (send 201 "USER_CREATED" z)
              have hsd := send_term_sentOnly 201 "USER_CREATED" z
              rw [hr.2.1, hsd.2.1, userCreate_ok h6] at hu2
              rcases List.mem_append.mp hu2 with hmem | hmem
              · left
                rwa [hws] at hmem
              · right
                have hrow : u2 = ⟨nextUserId w, req.name, req.email,
                    Middlewares.getName req.name ++ "-" ++ toString req.now
                      ++ "." ++ cfg.imgExt, Password.hashed q 10⟩ :=
                  List.mem_singleton.mp hmem
                subst hrow
                exact ⟨q, hq, rfl⟩
        | some nf =>
          simp only [UserCtrl.setImage, bind_ok_st]
          cases h4 : unlink (UserCtrl.usersImg cfg ++ nf) w with
          | error x =>
            rw [bind_error_st]
            intro u2 hu2
            left
            have hr := runCatch_term 400 "USER_NOT_CREATED" (Except.error x)
            rw [term_error] at hr
            rw [hr.2.1, unlink_error h4, hws] at hu2
            exact hu2
          | ok x =>
            have hX : x.users = w.users := (unlink_ok h4).2.1
            have hxs : x.users = s.users := hX.trans hws
            rw [bind_ok_st]
            cases hB : UserCtrl.bcryptHash req.password x with
            | error y =>
              rw [bind_error_t]
              intro u2 hu2
              left
              have hr := runCatch_term 400 "USER_NOT_CREATED" (Except.error y)
              rw [term_error] at hr
              rw [hr.2.1, bcryptHash_error hB, hxs] at hu2
              exact hu2
            | ok hash =>
              rcases bcryptHash_ok hB with ⟨q, hq, rfl⟩
              rw [bind_ok_t]
              cases h6 : userCreate req.dbFail req.name req.email
                  (Middlewares.getName req.name ++ "-" ++ toString req.now
                    ++ "." ++ cfg.imgExt) (Password.hashed q 10) x with
              | error z =>
                rw [bind_error_st]
                intro u2 hu2
                left
                have hr := runCatch_term 400 "USER_NOT_CREATED" (Except.error z)
                rw [term_error] at hr
                rw [hr.2.1, userCreate_error h6, hxs] at hu2
                exact hu2
              | ok z =>
                rw [bind_ok_st]
                intro u2 hu2
                have hr := runCatch_term 400 "USER_NOT_CREATED"
                  (send 201 "USER_CREATED" z)
                have hsd := send_term_sentOnly 201 "USER_CREATED" z
                rw [hr.2.1, hsd.2.1, userCreate_ok h6] at hu2
                rcases List.mem_append.mp hu2 with hmem | hmem
                · left
                  rwa [hxs] at hmem
                · right
                  have hrow : u2 = ⟨nextUserId x, req.name, req.email,
                      Middlewares.getName req.name ++ "-" ++ toString req.now
                        ++ "." ++ cfg.imgExt, Password.hashed q 10⟩ :=
                    List.mem_singleton.mp hmem
                  subst hrow
                  exact ⟨q, hq, rfl⟩

/-- C8 (amended): whenever a user row is created, or updated with a
present, non-empty password, every persisted password value either is
carried over from a stored row or is the cost-10 bcrypt hash of the
request password, so the non-empty plaintext itself is never persisted;
the empty-string counterexample is the one exception the code allows. -/
theorem c8_password_hashed_cost10 (cfg : Config) (req : UserReq) (s : St)
    (p : String) (hp : req.password = some p) (hne : ¬ p = "") :
    (∀ u2 ∈ (UserCtrl.createUser cfg req s).users,
      u2 ∈ s.users ∨ u2.password = Password.hashed p 10)
    ∧ (∀ u2 ∈ (UserCtrl.updateUser cfg req s).users,
      (∃ w ∈ s.users, u2.password = w.password)
      ∨ u2.password = Password.hashed p 10) := by
  constructor
  · intro u2 hu2
    rcases createUser_password_shape cfg req s u2 hu2 with h | ⟨q, hq, hpw⟩
    · exact Or.inl h
    · right
      rw [hp] at hq
      have hqp : p = q := by simpa using hq
      rw [hqp]
      exact hpw
  · exact updateUser_password_shape cfg req s p hp hne

/-- C8 witness: the theorem applied to a signup and to an update carrying
the password Str0ngP4ss: the resulting rows hold its cost-10 hash. -/
theorem c8_password_hashed_cost10_witness :
    ((⟨1, "Ann", "ann@x.com", "Ann-9.webp", .hashed "Str0ngP4ss" 10⟩ : UserRow)
        ∈ ([] : List UserRow)
      ∨ (Password.hashed "Str0ngP4ss" 10 : Password) = Password.hashed "Str0ngP4ss" 10)
    ∧ ((∃ w ∈ ([⟨1, "Ann", "ann@x.com", "i.webp", .hashed "old" 10⟩] : List UserRow),
          (Password.hashed "Str0ngP4ss" 10 : Password) = w.password)
      ∨ (Password.hashed "Str0ngP4ss" 10 : Password) = Password.hashed "Str0ngP4ss" 10) :=
  ⟨(c8_password_hashed_cost10 cfgA ⟨0, "Ann", "ann@x.com", some "Str0ngP4ss", none, 9, false⟩
      ⟨[], [], [], none⟩ "Str0ngP4ss" rfl (by decide)).1
      ⟨1, "Ann", "ann@x.com", "Ann-9.webp", .hashed "Str0ngP4ss" 10⟩ (by decide),
   (c8_password_hashed_cost10 cfgA ⟨1, "Ann2", "ann2@x.com", some "Str0ngP4ss", none, 3, false⟩
      ⟨[], [⟨1, "Ann", "ann@x.com", "i.webp", .hashed "old" 10⟩], [], none⟩
      "Str0ngP4ss" rfl (by decide)).2
      ⟨1, "Ann2", "ann2@x.com", "i.webp", .hashed "Str0ngP4ss" 10⟩ (by decide)⟩
